import Mathlib

/-!
A verification development for the `ruma-events` crate: a decoder/encoder and
validation framework for Matrix events (tagged JSON records).

The embedding models JSON values as an inductive type; serde-based decoding
becomes functions `Json → Except String _` (serde error messages are modelled
without their line/column position suffixes, which the properties under study
never mention), and the crate's string-level `FromStr` entry points become
functions over a `JsonInput` that distinguishes unparseable text from a parsed
JSON value.

Identifier types (`UserId`, `EventId`, `RoomId`, `DeviceId`) come from the
external `ruma_identifiers` crate and are declared external collaborators by
the design document; they are modelled as plain strings accepted verbatim.
-/

/-- A JSON value, mirroring `serde_json::Value`. Objects are association lists
in document order; numbers are integers (the only numeric fields in scope are
unsigned-integer timestamps). -/
inductive Json where
  | null : Json
  | bool : Bool → Json
  | num : Int → Json
  | str : String → Json
  | arr : List Json → Json
  | obj : List (String × Json) → Json
deriving Repr, BEq

namespace Json

/-- Look a key up in an object's field list (first occurrence wins). -/
def lookupField : List (String × Json) → String → Option Json
  | [], _ => none
  | (k', v) :: rest, k => if k' = k then some v else lookupField rest k

/-- `serde_json::Value::get`: returns a field of an object, `none` on any
non-object value or absent key. -/
def get : Json → String → Option Json
  | .obj fields, k => lookupField fields k
  | _, _ => none

/-- Whether the value is a JSON object. -/
def isObj : Json → Bool
  | .obj _ => true
  | _ => false

/-- The keys of an object (empty for non-objects). -/
def keys : Json → List String
  | .obj fields => fields.map Prod.fst
  | _ => []

end Json

/-- `src/lib.rs`: the `EventType` enum, one variant per event type known to
the Matrix specification plus the `Custom` escape hatch and the reserved
`__Nonexhaustive` placeholder. -/
inductive EventType where
  | callAnswer
  | callCandidates
  | callHangup
  | callInvite
  | direct
  | dummy
  | forwardedRoomKey
  | fullyRead
  | keyVerificationAccept
  | keyVerificationCancel
  | keyVerificationKey
  | keyVerificationMac
  | keyVerificationRequest
  | keyVerificationStart
  | ignoredUserList
  | presence
  | pushRules
  | receipt
  | roomAliases
  | roomAvatar
  | roomCanonicalAlias
  | roomCreate
  | roomEncrypted
  | roomEncryption
  | roomGuestAccess
  | roomHistoryVisibility
  | roomJoinRules
  | roomMember
  | roomMessage
  | roomMessageFeedback
  | roomName
  | roomPinnedEvents
  | roomPowerLevels
  | roomRedaction
  | roomServerAcl
  | roomThirdPartyInvite
  | roomTombstone
  | roomTopic
  | roomKey
  | roomKeyRequest
  | sticker
  | tag
  | typing
  | custom (s : String)
  | nonexhaustive
deriving Repr, BEq, DecidableEq

/-- The wire-string/variant table of `impl From<&str> for EventType`
(`src/lib.rs` lines 732-781); the same pairs appear in the `Display`
implementation (lines 676-730). -/
def eventTypeList : List (String × EventType) :=
  [ ("m.call.answer", .callAnswer)
  , ("m.call.candidates", .callCandidates)
  , ("m.call.hangup", .callHangup)
  , ("m.call.invite", .callInvite)
  , ("m.direct", .direct)
  , ("m.dummy", .dummy)
  , ("m.forwarded_room_key", .forwardedRoomKey)
  , ("m.fully_read", .fullyRead)
  , ("m.key.verification.accept", .keyVerificationAccept)
  , ("m.key.verification.cancel", .keyVerificationCancel)
  , ("m.key.verification.key", .keyVerificationKey)
  , ("m.key.verification.mac", .keyVerificationMac)
  , ("m.key.verification.request", .keyVerificationRequest)
  , ("m.key.verification.start", .keyVerificationStart)
  , ("m.ignored_user_list", .ignoredUserList)
  , ("m.presence", .presence)
  , ("m.push_rules", .pushRules)
  , ("m.receipt", .receipt)
  , ("m.room.aliases", .roomAliases)
  , ("m.room.avatar", .roomAvatar)
  , ("m.room.canonical_alias", .roomCanonicalAlias)
  , ("m.room.create", .roomCreate)
  , ("m.room.encrypted", .roomEncrypted)
  , ("m.room.encryption", .roomEncryption)
  , ("m.room.guest_access", .roomGuestAccess)
  , ("m.room.history_visibility", .roomHistoryVisibility)
  , ("m.room.join_rules", .roomJoinRules)
  , ("m.room.member", .roomMember)
  , ("m.room.message", .roomMessage)
  , ("m.room.message.feedback", .roomMessageFeedback)
  , ("m.room.name", .roomName)
  , ("m.room.pinned_events", .roomPinnedEvents)
  , ("m.room.power_levels", .roomPowerLevels)
  , ("m.room.redaction", .roomRedaction)
  , ("m.room.server_acl", .roomServerAcl)
  , ("m.room.third_party_invite", .roomThirdPartyInvite)
  , ("m.room.tombstone", .roomTombstone)
  , ("m.room.topic", .roomTopic)
  , ("m.room_key", .roomKey)
  , ("m.room_key_request", .roomKeyRequest)
  , ("m.sticker", .sticker)
  , ("m.tag", .tag)
  , ("m.typing", .typing)
  ]

/-- `impl From<&str> for EventType`: an exact string match against the known
wire strings, any other string becoming `Custom` with the string verbatim. -/
def eventTypeFromString (s : String) : EventType :=
  match eventTypeList.find? (fun p => p.1 = s) with
  | some p => p.2
  | none => .custom s

/-- `impl Display for EventType` (`src/lib.rs` lines 676-730). The
`__Nonexhaustive` variant panics in the source and is modelled as `none`. -/
def eventTypeToString : EventType → Option String
  | .callAnswer => some "m.call.answer"
  | .callCandidates => some "m.call.candidates"
  | .callHangup => some "m.call.hangup"
  | .callInvite => some "m.call.invite"
  | .direct => some "m.direct"
  | .dummy => some "m.dummy"
  | .forwardedRoomKey => some "m.forwarded_room_key"
  | .fullyRead => some "m.fully_read"
  | .keyVerificationAccept => some "m.key.verification.accept"
  | .keyVerificationCancel => some "m.key.verification.cancel"
  | .keyVerificationKey => some "m.key.verification.key"
  | .keyVerificationMac => some "m.key.verification.mac"
  | .keyVerificationRequest => some "m.key.verification.request"
  | .keyVerificationStart => some "m.key.verification.start"
  | .ignoredUserList => some "m.ignored_user_list"
  | .presence => some "m.presence"
  | .pushRules => some "m.push_rules"
  | .receipt => some "m.receipt"
  | .roomAliases => some "m.room.aliases"
  | .roomAvatar => some "m.room.avatar"
  | .roomCanonicalAlias => some "m.room.canonical_alias"
  | .roomCreate => some "m.room.create"
  | .roomEncrypted => some "m.room.encrypted"
  | .roomEncryption => some "m.room.encryption"
  | .roomGuestAccess => some "m.room.guest_access"
  | .roomHistoryVisibility => some "m.room.history_visibility"
  | .roomJoinRules => some "m.room.join_rules"
  | .roomMember => some "m.room.member"
  | .roomMessage => some "m.room.message"
  | .roomMessageFeedback => some "m.room.message.feedback"
  | .roomName => some "m.room.name"
  | .roomPinnedEvents => some "m.room.pinned_events"
  | .roomPowerLevels => some "m.room.power_levels"
  | .roomRedaction => some "m.room.redaction"
  | .roomServerAcl => some "m.room.server_acl"
  | .roomThirdPartyInvite => some "m.room.third_party_invite"
  | .roomTombstone => some "m.room.tombstone"
  | .roomTopic => some "m.room.topic"
  | .roomKey => some "m.room_key"
  | .roomKeyRequest => some "m.room_key_request"
  | .sticker => some "m.sticker"
  | .tag => some "m.tag"
  | .typing => some "m.typing"
  | .custom s => some s
  | .nonexhaustive => none

/-- `impl Serialize for EventType` serializes via the `Display` form. -/
def jsonOfEventType (t : EventType) : Json :=
  match eventTypeToString t with
  | some s => .str s
  | none => .null

example : eventTypeFromString "m.dummy" = .dummy := by decide
example : eventTypeFromString "io.example.custom" = .custom "io.example.custom" := by decide
example : eventTypeToString (eventTypeFromString "m.room.topic") = some "m.room.topic" := by decide

/-- `src/lib.rs`: the `Algorithm` enum for encryption algorithms. -/
inductive Algorithm where
  | olmV1Curve25519AesSha2
  | megolmV1AesSha2
  | custom (s : String)
  | nonexhaustive
deriving Repr, BEq, DecidableEq

/-- `impl From<&str> for Algorithm` (`src/lib.rs` lines 851-859). -/
def algorithmFromString (s : String) : Algorithm :=
  if s = "m.olm.v1.curve25519-aes-sha2" then .olmV1Curve25519AesSha2
  else if s = "m.megolm.v1.aes-sha2" then .megolmV1AesSha2
  else .custom s

/-- `impl Deserialize for Algorithm`: a string visitor; any non-string JSON
value is a serde type error. -/
def algorithmFromJson : Json → Except String Algorithm
  | .str s => .ok (algorithmFromString s)
  | _ => .error "invalid type, expected an encryption algorithm code as a string"

/-- Input to a `FromStr` decode entry point: either text that is not valid
JSON at all (carrying the JSON parser's error text) or the parsed value. -/
inductive JsonInput where
  | malformed (error : String)
  | value (v : Json)

/-- The invalid-event diagnostic as consumed by the `FromStr` implementations
and the `collections::all` decoders: `InnerInvalidEvent::Deserialization`
carries the underlying parse error for input that was not valid JSON, and
`InnerInvalidEvent::Validation` carries the parsed `serde_json::Value`
together with a message. -/
inductive InvalidEvent where
  | deserialization (error : String)
  | validation (json : Json) (message : String)
deriving Repr, BEq

/-- Class test: is the diagnostic of the deserialization (syntactic) class? -/
def InvalidEvent.isDeserialization : InvalidEvent → Bool
  | .deserialization _ => true
  | .validation _ _ => false

/-- js_int `UInt` upper bound (2^53 - 1). -/
def uintMax : Int := 9007199254740991

/-- Deserializing a js_int `UInt`: a JSON integer within `[0, 2^53-1]`. -/
def parseUInt : Json → Except String Int
  | .num n =>
    if 0 ≤ n ∧ n ≤ uintMax then .ok n
    else .error "out of range integral type conversion attempted"
  | _ => .error "invalid type, expected an unsigned integer"

/-- Deserializing an identifier (`UserId`, `EventId`, `RoomId`, `DeviceId`):
the `ruma_identifiers` crate is an external collaborator, so identifiers are
modelled as strings accepted verbatim. -/
def parseIdent : Json → Except String String
  | .str s => .ok s
  | _ => .error "invalid type, expected a string identifier"

/-- A required struct field, deserialized by `p`. -/
def parseField (v : Json) (k : String) (p : Json → Except String α) :
    Except String α :=
  match v.get k with
  | none => .error ("missing field `" ++ k ++ "`")
  | some j => p j

/-- An `Option<T>` struct field: missing or `null` becomes `none`. -/
def parseOptField (v : Json) (k : String) (p : Json → Except String α) :
    Except String (Option α) :=
  match v.get k with
  | none => .ok none
  | some .null => .ok none
  | some j => (p j).map some

/-- `src/lib.rs`: the `Empty` marker type, "a meaningless value that
serializes to an empty JSON object". (Named `EmptyMarker` here because `Empty`
is taken by the Lean core library.) -/
structure EmptyMarker where
deriving Repr, BEq, DecidableEq

/-- `impl Serialize for Empty` (`src/lib.rs` lines 406-413): a zero-entry
map. -/
def emptyMarkerSerialize : Json := .obj []

/-- `impl Deserialize for Empty` (`src/lib.rs` lines 415-439): the map
visitor accepts any map whatsoever, ignoring its entries; any non-map value
is a type error. -/
def emptyMarkerDeserialize : Json → Except String EmptyMarker
  | .obj _ => .ok ⟨⟩
  | _ => .error "invalid type, expected an object/map"

/-- `m.ignored_user_list` content (`src/ignored_user_list.rs`): the public
shape, a plain list of user identifiers. -/
structure IgnoredUserListEventContent where
  ignored_users : List String
deriving Repr, BEq, DecidableEq

/-- `m.ignored_user_list` event: the public shape. -/
structure IgnoredUserListEvent where
  content : IgnoredUserListEventContent
deriving Repr, BEq, DecidableEq

/-- `raw::IgnoredUserListEventContent`: the wire shape, a map from user
identifier to `Empty`. Entries are kept in document order (the source's
`HashMap` has arbitrary iteration order; the properties under study involve
single-entry maps, where the two agree). -/
structure RawIgnoredUserListEventContent where
  ignored_users : List (String × EmptyMarker)
deriving Repr, BEq, DecidableEq

/-- `raw::IgnoredUserListEvent`. -/
structure RawIgnoredUserListEvent where
  content : RawIgnoredUserListEventContent
deriving Repr, BEq, DecidableEq

/-- Deserializing `HashMap<UserId, Empty>`. -/
def parseEmptyMarkerMap : Json → Except String (List (String × EmptyMarker))
  | .obj fields =>
    fields.mapM fun p => (emptyMarkerDeserialize p.2).map fun e => (p.1, e)
  | _ => .error "invalid type, expected a map"

/-- Derived `Deserialize` for `raw::IgnoredUserListEventContent`. -/
def rawIgnoredUserListEventContentParse (v : Json) :
    Except String RawIgnoredUserListEventContent :=
  if v.isObj then
    (parseField v "ignored_users" parseEmptyMarkerMap).map fun m => ⟨m⟩
  else .error "invalid type, expected struct IgnoredUserListEventContent"

/-- Derived `Deserialize` for `raw::IgnoredUserListEvent`. -/
def rawIgnoredUserListEventParse (v : Json) :
    Except String RawIgnoredUserListEvent :=
  if v.isObj then
    (parseField v "content" rawIgnoredUserListEventContentParse).map fun c => ⟨c⟩
  else .error "invalid type, expected struct IgnoredUserListEvent"

/-- `impl FromStr for IgnoredUserListEvent` (`src/ignored_user_list.rs` lines
24-50): parse the raw shape; on failure, valid JSON becomes a
`Validation` diagnostic carrying the value and the parser error text, and
invalid JSON becomes a `Deserialization` diagnostic; on success the wire map
is lowered to the plain list of its keys. -/
def ignoredUserListEventFromStr : JsonInput → Except InvalidEvent IgnoredUserListEvent
  | .malformed e => .error (.deserialization e)
  | .value v =>
    match rawIgnoredUserListEventParse v with
    | .error e => .error (.validation v e)
    | .ok raw => .ok ⟨⟨raw.content.ignored_users.map Prod.fst⟩⟩

/-- `impl Serialize for IgnoredUserListEventContent` (lines 116-131): rebuild
the identifier-to-`Empty` map and serialize the raw shape. -/
def ignoredUserListEventContentSerialize (c : IgnoredUserListEventContent) : Json :=
  .obj [("ignored_users", .obj (c.ignored_users.map fun u => (u, emptyMarkerSerialize)))]

/-- `impl Serialize for IgnoredUserListEvent` (lines 61-73): a two-field
struct, `content` then `type`. -/
def ignoredUserListEventSerialize (e : IgnoredUserListEvent) : Json :=
  .obj [ ("content", ignoredUserListEventContentSerialize e.content)
       , ("type", jsonOfEventType .ignoredUserList) ]

example :
    ignoredUserListEventFromStr
      (.value (.obj [("content", .obj [("ignored_users",
        .obj [("@carl:example.com", .obj [])])]), ("type", .str "m.ignored_user_list")]))
      = .ok ⟨⟨["@carl:example.com"]⟩⟩ := by rfl

/-- `m.room.server_acl` content (`src/room/server_acl.rs`): identical public
and raw shapes. -/
structure ServerAclEventContent where
  allow_ip_literals : Bool
  allow : List String
  deny : List String
deriving Repr, BEq, DecidableEq

/-- `m.room.server_acl` event (`src/room/server_acl.rs` lines 17-42). -/
structure ServerAclEvent where
  content : ServerAclEventContent
  event_id : String
  origin_server_ts : Int
  prev_content : Option ServerAclEventContent
  room_id : Option String
  sender : String
  state_key : String
  unsigned : Option Json
deriving Repr, BEq

/-- Deserializing a `Vec<String>`. -/
def parseStringList : Json → Except String (List String)
  | .arr xs =>
    xs.mapM fun x =>
      match x with
      | .str s => Except.ok s
      | _ => Except.error "invalid type, expected a string"
  | _ => .error "invalid type, expected a sequence"

/-- Derived `Deserialize` for `raw::ServerAclEventContent` (lines 126-153):
`allow_ip_literals` defaults to `true` when missing
(`#[serde(default = "default_true")]`, `src/lib.rs` lines 921-924), `allow`
and `deny` default to the empty list (`#[serde(default)]`). -/
def rawServerAclEventContentParse (v : Json) :
    Except String ServerAclEventContent :=
  if v.isObj then do
    let ail ←
      match v.get "allow_ip_literals" with
      | none => Except.ok true
      | some (.bool b) => Except.ok b
      | some _ => Except.error "invalid type, expected a boolean"
    let allow ←
      match v.get "allow" with
      | none => Except.ok []
      | some j => parseStringList j
    let deny ←
      match v.get "deny" with
      | none => Except.ok []
      | some j => parseStringList j
    Except.ok ⟨ail, allow, deny⟩
  else .error "invalid type, expected struct ServerAclEventContent"

/-- Derived `Deserialize` for `raw::ServerAclEvent` (lines 93-123):
`content`, `event_id`, `origin_server_ts`, `sender` and `state_key` required,
`prev_content`, `room_id` and `unsigned` optional. -/
def rawServerAclEventParse (v : Json) : Except String ServerAclEvent :=
  if v.isObj then do
    let content ← parseField v "content" rawServerAclEventContentParse
    let event_id ← parseField v "event_id" parseIdent
    let origin_server_ts ← parseField v "origin_server_ts" parseUInt
    let prev_content ← parseOptField v "prev_content" rawServerAclEventContentParse
    let room_id ← parseOptField v "room_id" parseIdent
    let unsigned ← parseOptField v "unsigned" Except.ok
    let sender ← parseField v "sender" parseIdent
    let state_key ← parseField v "state_key" parseIdent
    Except.ok ⟨content, event_id, origin_server_ts, prev_content, room_id, sender,
      state_key, unsigned⟩
  else .error "invalid type, expected struct ServerAclEvent"

/-- Modelled from the spec: the `FromStr` implementation for `ServerAclEvent`
is generated by the `impl_state_event!` macro, whose defining module
(`src/macros.rs`) is absent from the source tree. Per the two-phase decoder
contract, the raw shape is parsed first (failure on valid JSON yielding a
validation-class diagnostic with the parser error text, failure on invalid
JSON a deserialization-class one), and the raw-to-public conversion is a pure
field-for-field pass-through with no phase-2 validation. -/
def serverAclEventFromStr : JsonInput → Except InvalidEvent ServerAclEvent
  | .malformed e => .error (.deserialization e)
  | .value v =>
    match rawServerAclEventParse v with
    | .error e => .error (.validation v e)
    | .ok raw => .ok raw

/-- Derived `Serialize` for `ServerAclEventContent` (lines 45-71): every
field is emitted, in declaration order. -/
def serverAclEventContentSerialize (c : ServerAclEventContent) : Json :=
  .obj [ ("allow_ip_literals", .bool c.allow_ip_literals)
       , ("allow", .arr (c.allow.map .str))
       , ("deny", .arr (c.deny.map .str)) ]

/-- `impl Serialize for ServerAclEvent` (lines 73-85): a struct of exactly
two fields, `content` and `type` — the identity and state fields
(`event_id`, `origin_server_ts`, `sender`, `state_key`, ...) are not
emitted. -/
def serverAclEventSerialize (e : ServerAclEvent) : Json :=
  .obj [ ("content", serverAclEventContentSerialize e.content)
       , ("type", jsonOfEventType .roomServerAcl) ]

/-- The state-event JSON object used by the repository's `default_values`
test and by the round-trip property. -/
def serverAclTestInput : Json :=
  .obj [ ("content", .obj [])
       , ("event_id", .str "$h29iv0s8:example.com")
       , ("origin_server_ts", .num 1)
       , ("sender", .str "@carl:example.com")
       , ("state_key", .str "")
       , ("type", .str "m.room.server_acl") ]

example :
    serverAclEventFromStr (.value serverAclTestInput)
      = .ok ⟨⟨true, [], []⟩, "$h29iv0s8:example.com", 1, none, none,
          "@carl:example.com", "", none⟩ := by rfl

/-- `m.room.encrypted`, *m.olm.v1.curve25519-aes-sha2* ciphertext info
(`src/room/encrypted.rs` lines 310-318). -/
structure CiphertextInfo where
  body : String
  message_type : Int
deriving Repr, BEq, DecidableEq

/-- `OlmV1Curve25519AesSha2Content` (lines 295-305). -/
structure OlmV1Curve25519AesSha2Content where
  algorithm : Algorithm
  ciphertext : CiphertextInfo
  sender_key : String
deriving Repr, BEq, DecidableEq

/-- `MegolmV1AesSha2Content` (lines 320-337). -/
structure MegolmV1AesSha2Content where
  algorithm : Algorithm
  ciphertext : String
  sender_key : String
  device_id : String
  session_id : String
deriving Repr, BEq, DecidableEq

/-- The payload for `EncryptedEvent`: one variant per supported algorithm
(the reserved `__Nonexhaustive` placeholder is unreachable by decoding). -/
inductive EncryptedEventContent where
  | olmV1Curve25519AesSha2 (c : OlmV1Curve25519AesSha2Content)
  | megolmV1AesSha2 (c : MegolmV1AesSha2Content)
deriving Repr, BEq, DecidableEq

/-- Derived `Deserialize` for `CiphertextInfo`; the wire name of
`message_type` is `type` (`#[serde(rename = "type")]`). -/
def ciphertextInfoParse (v : Json) : Except String CiphertextInfo :=
  if v.isObj then do
    let body ← parseField v "body" parseIdent
    let mt ← parseField v "type" parseUInt
    Except.ok ⟨body, mt⟩
  else .error "invalid type, expected struct CiphertextInfo"

/-- Derived `Deserialize` for `OlmV1Curve25519AesSha2Content`. -/
def olmV1ContentParse (v : Json) : Except String OlmV1Curve25519AesSha2Content :=
  if v.isObj then do
    let algorithm ← parseField v "algorithm" algorithmFromJson
    let ciphertext ← parseField v "ciphertext" ciphertextInfoParse
    let sender_key ← parseField v "sender_key" parseIdent
    Except.ok ⟨algorithm, ciphertext, sender_key⟩
  else .error "invalid type, expected struct OlmV1Curve25519AesSha2Content"

/-- Derived `Deserialize` for `MegolmV1AesSha2Content`. -/
def megolmV1ContentParse (v : Json) : Except String MegolmV1AesSha2Content :=
  if v.isObj then do
    let algorithm ← parseField v "algorithm" algorithmFromJson
    let ciphertext ← parseField v "ciphertext" parseIdent
    let sender_key ← parseField v "sender_key" parseIdent
    let device_id ← parseField v "device_id" parseIdent
    let session_id ← parseField v "session_id" parseIdent
    Except.ok ⟨algorithm, ciphertext, sender_key, device_id, session_id⟩
  else .error "invalid type, expected struct MegolmV1AesSha2Content"

/-- `impl Deserialize for raw::EncryptedEventContent`
(`src/room/encrypted.rs` lines 249-291): look up the `algorithm` field
(absence is `missing_field("algorithm")`), deserialize it as an `Algorithm`,
then dispatch — the two supported algorithms select their content shape, and
a custom algorithm is rejected outright. -/
def rawEncryptedEventContentParse (v : Json) :
    Except String EncryptedEventContent :=
  match v.get "algorithm" with
  | none => .error "missing field `algorithm`"
  | some algValue =>
    match algorithmFromJson algValue with
    | .error e => .error e
    | .ok alg =>
      match alg with
      | .olmV1Curve25519AesSha2 =>
        (olmV1ContentParse v).map .olmV1Curve25519AesSha2
      | .megolmV1AesSha2 =>
        (megolmV1ContentParse v).map .megolmV1AesSha2
      | .custom _ =>
        .error "Custom algorithms are not supported by `EncryptedEventContent`."
      | .nonexhaustive =>
        .error "Attempted to deserialize __Nonexhaustive variant."

/-- `impl FromStr for EncryptedEventContent` (lines 147-179): parse the raw
content; failure on valid JSON is a `Validation` diagnostic carrying the
value and the parser error text, invalid JSON a `Deserialization` one; the
raw variants map straight onto the public ones. -/
def encryptedEventContentFromStr :
    JsonInput → Except InvalidEvent EncryptedEventContent
  | .malformed e => .error (.deserialization e)
  | .value v =>
    match rawEncryptedEventContentParse v with
    | .error e => .error (.validation v e)
    | .ok raw => .ok raw

/-- `m.room.encrypted` event (lines 16-36). -/
structure EncryptedEvent where
  content : EncryptedEventContent
  event_id : String
  origin_server_ts : Int
  room_id : Option String
  sender : String
  unsigned : Option Json
deriving Repr, BEq

/-- Derived `Deserialize` for `raw::EncryptedEvent` (lines 212-232). -/
def rawEncryptedEventParse (v : Json) : Except String EncryptedEvent :=
  if v.isObj then do
    let content ← parseField v "content" rawEncryptedEventContentParse
    let event_id ← parseField v "event_id" parseIdent
    let origin_server_ts ← parseField v "origin_server_ts" parseUInt
    let room_id ← parseOptField v "room_id" parseIdent
    let sender ← parseField v "sender" parseIdent
    let unsigned ← parseOptField v "unsigned" Except.ok
    Except.ok ⟨content, event_id, origin_server_ts, room_id, sender, unsigned⟩
  else .error "invalid type, expected struct EncryptedEvent"

/-- `impl FromStr for EncryptedEvent` (lines 53-94): same two-phase shape as
the content decoder, with a field-for-field raw-to-public conversion. -/
def encryptedEventFromStr : JsonInput → Except InvalidEvent EncryptedEvent
  | .malformed e => .error (.deserialization e)
  | .value v =>
    match rawEncryptedEventParse v with
    | .error e => .error (.validation v e)
    | .ok raw => .ok raw

example :
    encryptedEventContentFromStr (.value (.obj
      [ ("algorithm", .str "m.megolm.v1.aes-sha2")
      , ("ciphertext", .str "ciphertext")
      , ("sender_key", .str "sender_key")
      , ("device_id", .str "device_id")
      , ("session_id", .str "session_id") ]))
      = .ok (.megolmV1AesSha2 ⟨.megolmV1AesSha2, "ciphertext", "sender_key",
          "device_id", "session_id"⟩) := by rfl

example :
    (encryptedEventContentFromStr (.value (.obj
      [("algorithm", .str "m.megolm.v1.aes-sha2")]))).isOk = false := by rfl

/-- `m.dummy` event (`src/dummy.rs`): content is the `Empty` marker. -/
structure DummyEvent where
  content : EmptyMarker
deriving Repr, BEq, DecidableEq

/-- Derived deserialization of the `m.dummy` raw shape: `content` required. -/
def rawDummyEventParse (v : Json) : Except String DummyEvent :=
  if v.isObj then
    (parseField v "content" emptyMarkerDeserialize).map fun c => ⟨c⟩
  else .error "invalid type, expected struct DummyEvent"

/-- Modelled from the spec: the `FromStr` implementation for `DummyEvent` is
generated by the `ruma_event!` macro from the absent `ruma_events_macros`
crate; it is a two-phase decode with no phase-2 validation. -/
def dummyEventFromStr : JsonInput → Except InvalidEvent DummyEvent
  | .malformed e => .error (.deserialization e)
  | .value v =>
    match rawDummyEventParse v with
    | .error e => .error (.validation v e)
    | .ok raw => .ok raw

/-- Modelled from the spec: `DummyEvent` serialization (macro-generated),
the empty-object content plus the `type` discriminant; the repository's
`serialization` test pins the exact JSON text, an object holding `content`
(an empty object) and `type` set to `m.dummy`. -/
def dummyEventSerialize (_e : DummyEvent) : Json :=
  .obj [("content", emptyMarkerSerialize), ("type", jsonOfEventType .dummy)]

/-- Modelled from the spec: `CustomEvent`, the basic-level catch-all record —
its module is commented out of `src/lib.rs` (lines 625-640) and its
definition is absent from the source tree. Per the spec, its content is raw
untyped JSON and its discriminant is the literal unrecognized string. -/
structure CustomEvent where
  content : Json
  event_type : String
deriving Repr, BEq

/-- Modelled from the spec: `CustomRoomEvent`, the room-scoped catch-all,
adding the room-scoped identity fields (`event_id`, `origin_server_ts`,
`sender` required; `room_id`, `unsigned` optional). -/
structure CustomRoomEvent where
  content : Json
  event_type : String
  event_id : String
  origin_server_ts : Int
  room_id : Option String
  sender : String
  unsigned : Option Json
deriving Repr, BEq

/-- Modelled from the spec: `CustomStateEvent`, the state-scoped catch-all,
further adding `state_key` (required) and `prev_content` (optional). -/
structure CustomStateEvent where
  content : Json
  event_type : String
  event_id : String
  origin_server_ts : Int
  prev_content : Option Json
  room_id : Option String
  sender : String
  state_key : String
  unsigned : Option Json
deriving Repr, BEq

/-- Modelled from the spec: decoding a `CustomEvent` — "decoding any JSON
with `type` set to an unrecognized, namespaced string at the Basic/Any level
succeeds into the basic catch-all variant, preserves the original
discriminant string". The content is the `content` field's raw JSON. -/
def customEventParse (v : Json) : Except String CustomEvent :=
  match v.get "type" with
  | some (.str s) => .ok ⟨(v.get "content").getD .null, s⟩
  | some _ => .error "invalid type, expected a Matrix event type as a string"
  | none => .error "missing field `type`"

/-- Modelled from the spec: decoding a `CustomRoomEvent` requires the
room-scoped identity fields. -/
def customRoomEventParse (v : Json) : Except String CustomRoomEvent :=
  match v.get "type" with
  | some (.str s) => do
    let event_id ← parseField v "event_id" parseIdent
    let origin_server_ts ← parseField v "origin_server_ts" parseUInt
    let room_id ← parseOptField v "room_id" parseIdent
    let sender ← parseField v "sender" parseIdent
    let unsigned ← parseOptField v "unsigned" Except.ok
    Except.ok ⟨(v.get "content").getD .null, s, event_id, origin_server_ts,
      room_id, sender, unsigned⟩
  | some _ => .error "invalid type, expected a Matrix event type as a string"
  | none => .error "missing field `type`"

/-- Modelled from the spec: decoding a `CustomStateEvent` additionally
requires `state_key`. -/
def customStateEventParse (v : Json) : Except String CustomStateEvent :=
  match v.get "type" with
  | some (.str s) => do
    let event_id ← parseField v "event_id" parseIdent
    let origin_server_ts ← parseField v "origin_server_ts" parseUInt
    let prev_content ← parseOptField v "prev_content" Except.ok
    let room_id ← parseOptField v "room_id" parseIdent
    let sender ← parseField v "sender" parseIdent
    let state_key ← parseField v "state_key" parseIdent
    let unsigned ← parseOptField v "unsigned" Except.ok
    Except.ok ⟨(v.get "content").getD .null, s, event_id, origin_server_ts,
      prev_content, room_id, sender, state_key, unsigned⟩
  | some _ => .error "invalid type, expected a Matrix event type as a string"
  | none => .error "missing field `type`"

/-- `src/lib.rs` lines 209-229: the generic `InnerInvalidEvent<T>` used by
the `EventResult` deserialization machinery — `Deserialization` keeps the
parsed `serde_json::Value` alongside the serde error, `Validation` keeps the
raw (phase-1) data alongside a message. -/
inductive InnerInvalidEvent (Raw : Type) where
  | deserialization (json : Json) (error : String)
  | validation (rawData : Raw) (message : String)
deriving Repr, BEq

/-- Class test for the generic diagnostic. -/
def InnerInvalidEvent.isDeserialization : InnerInvalidEvent Raw → Bool
  | .deserialization _ _ => true
  | .validation _ _ => false

/-- `src/lib.rs` lines 287-302: the result of deserializing an event. -/
inductive EventResult (T Raw : Type) where
  | ok (t : T)
  | err (e : InnerInvalidEvent Raw)
deriving Repr, BEq

/-- `impl EventResultDeserialize for (EventResult<T>, True)` (`src/lib.rs`
lines 337-365): phase 1 parses the raw shape — failure yields a
`Deserialization` diagnostic with the JSON value and the error — and phase 2
is the raw type's `TryInto`, whose failure yields a `Validation` diagnostic
with the raw data and the message. -/
def eventResultDeserializeValidated (rawParse : Json → Except String Raw)
    (tryInto : Raw → Except (Raw × String) T) (json : Json) :
    EventResult T Raw :=
  match rawParse json with
  | .error error => .err (.deserialization json error)
  | .ok rawData =>
    match tryInto rawData with
    | .ok value => .ok value
    | .error (rawData, message) => .err (.validation rawData message)

/-- `impl EventResultDeserialize for (EventResult<T>, False)` (`src/lib.rs`
lines 367-382): types with no validation phase parse directly; any failure is
a `Deserialization` diagnostic. -/
def eventResultDeserializeSimple (parse : Json → Except String T)
    (json : Json) : EventResult T T :=
  match parse json with
  | .ok value => .ok value
  | .error error => .err (.deserialization json error)

/-- The message of an `InvalidEvent`, as produced by its `Display`
implementation (`error.to_string()` at the dispatch sites). -/
def InvalidEvent.message : InvalidEvent → String
  | .deserialization e => e
  | .validation _ m => m

/-- The three capability levels of the event hierarchy. -/
inductive EventLevel where
  | basic
  | room
  | state
deriving Repr, BEq, DecidableEq

/-- The maximal capability level of each known event type, read off the
membership of the `collections::all` enums (`src/collections/all.rs`). -/
def eventTypeLevel : EventType → EventLevel
  | .roomAliases | .roomAvatar | .roomCanonicalAlias | .roomCreate
  | .roomEncryption | .roomGuestAccess | .roomHistoryVisibility
  | .roomJoinRules | .roomMember | .roomName | .roomPinnedEvents
  | .roomPowerLevels | .roomServerAcl | .roomThirdPartyInvite
  | .roomTombstone | .roomTopic => .state
  | .callAnswer | .callCandidates | .callHangup | .callInvite
  | .roomEncrypted | .roomMessage | .roomMessageFeedback | .roomRedaction
  | .sticker => .room
  | _ => .basic

/-- Modelled from the spec: the decoder of a concrete record type whose
defining module is absent from the source tree (the per-type record modules
are declared in `src/lib.rs` but not present). The spec treats these as pure
data-shape declarations; the model checks the wire contract of the type's
capability level — `content` always present, plus the identity fields
required at the room/state levels — and keeps the raw JSON as the record. -/
def modelRecordParse (lvl : EventLevel) (v : Json) : Except String Json := do
  let _ ← parseField v "content" Except.ok
  match lvl with
  | .basic => Except.ok v
  | .room => do
    let _ ← parseField v "event_id" parseIdent
    let _ ← parseField v "origin_server_ts" parseUInt
    let _ ← parseField v "sender" parseIdent
    Except.ok v
  | .state => do
    let _ ← parseField v "event_id" parseIdent
    let _ ← parseField v "origin_server_ts" parseUInt
    let _ ← parseField v "sender" parseIdent
    let _ ← parseField v "state_key" parseIdent
    Except.ok v

/-- `collections::all::Event`: the Any-level heterogeneous collection. The
concrete record types present in the source tree keep dedicated variants;
the remaining known types — whose record modules are absent — share the
`other` variant, tagged with their `EventType`. -/
inductive AllEvent where
  | dummy (e : DummyEvent)
  | ignoredUserList (e : IgnoredUserListEvent)
  | roomEncrypted (e : EncryptedEvent)
  | roomServerAcl (e : ServerAclEvent)
  | other (t : EventType) (e : Json)
  | custom (e : CustomEvent)
  | customRoom (e : CustomRoomEvent)
  | customState (e : CustomStateEvent)
deriving Repr, BEq

/-- `impl FromStr for collections::all::Event` (`src/collections/all.rs`
lines 397-762): parse the JSON, require a `type` field, resolve it through
the registry, then dispatch — every known discriminant invokes its concrete
decoder (failures becoming `Validation` diagnostics carrying the value and
the inner message), and an unrecognized discriminant routes by field
presence: `state_key` to the state catch-all, else `event_id`+`room_id`+
`sender` to the room catch-all, else the basic catch-all. -/
def allEventFromStr : JsonInput → Except InvalidEvent AllEvent
  | .malformed e => .error (.deserialization e)
  | .value v =>
    match v.get "type" with
    | none => .error (.validation v "missing field `type`")
    | some typeValue =>
      match typeValue with
      | .str s =>
        match eventTypeFromString s with
        | .dummy =>
          match dummyEventFromStr (.value v) with
          | .ok e => .ok (.dummy e)
          | .error err => .error (.validation v err.message)
        | .ignoredUserList =>
          match ignoredUserListEventFromStr (.value v) with
          | .ok e => .ok (.ignoredUserList e)
          | .error err => .error (.validation v err.message)
        | .roomEncrypted =>
          match encryptedEventFromStr (.value v) with
          | .ok e => .ok (.roomEncrypted e)
          | .error err => .error (.validation v err.message)
        | .roomServerAcl =>
          match serverAclEventFromStr (.value v) with
          | .ok e => .ok (.roomServerAcl e)
          | .error err => .error (.validation v err.message)
        | .custom _ =>
          if (v.get "state_key").isSome then
            match customStateEventParse v with
            | .ok e => .ok (.customState e)
            | .error m => .error (.validation v m)
          else if (v.get "event_id").isSome && (v.get "room_id").isSome
              && (v.get "sender").isSome then
            match customRoomEventParse v with
            | .ok e => .ok (.customRoom e)
            | .error m => .error (.validation v m)
          else
            match customEventParse v with
            | .ok e => .ok (.custom e)
            | .error m => .error (.validation v m)
        | .nonexhaustive =>
          .error (.validation v "__Nonexhaustive enum variant is not intended for use.")
        | t =>
          match modelRecordParse (eventTypeLevel t) v with
          | .ok e => .ok (.other t e)
          | .error m => .error (.validation v m)
      | _ =>
        .error (.validation v "invalid type, expected a Matrix event type as a string")

/-- `collections::all::RoomEvent`: the room-or-state-level collection. -/
inductive AllRoomEvent where
  | roomEncrypted (e : EncryptedEvent)
  | roomServerAcl (e : ServerAclEvent)
  | other (t : EventType) (e : Json)
  | customRoom (e : CustomRoomEvent)
  | customState (e : CustomStateEvent)
deriving Repr, BEq

/-- `impl FromStr for collections::all::RoomEvent` (`src/collections/all.rs`
lines 801-1050): like the Any-level decoder, but basic-only discriminants
are rejected outright with a "not a room event" diagnostic, and an
unrecognized discriminant routes on `state_key` presence alone (state
catch-all if present, room catch-all otherwise). -/
def roomEventFromStr : JsonInput → Except InvalidEvent AllRoomEvent
  | .malformed e => .error (.deserialization e)
  | .value v =>
    match v.get "type" with
    | none => .error (.validation v "missing field `type`")
    | some typeValue =>
      match typeValue with
      | .str s =>
        match eventTypeFromString s with
        | .roomEncrypted =>
          match encryptedEventFromStr (.value v) with
          | .ok e => .ok (.roomEncrypted e)
          | .error err => .error (.validation v err.message)
        | .roomServerAcl =>
          match serverAclEventFromStr (.value v) with
          | .ok e => .ok (.roomServerAcl e)
          | .error err => .error (.validation v err.message)
        | .custom _ =>
          if (v.get "state_key").isSome then
            match customStateEventParse v with
            | .ok e => .ok (.customState e)
            | .error m => .error (.validation v m)
          else
            match customRoomEventParse v with
            | .ok e => .ok (.customRoom e)
            | .error m => .error (.validation v m)
        | .direct | .dummy | .forwardedRoomKey | .fullyRead
        | .keyVerificationAccept | .keyVerificationCancel
        | .keyVerificationKey | .keyVerificationMac
        | .keyVerificationRequest | .keyVerificationStart
        | .ignoredUserList | .presence | .pushRules | .receipt
        | .roomKey | .roomKeyRequest | .tag | .typing =>
          .error (.validation v "not a room event")
        | .nonexhaustive =>
          .error (.validation v "__Nonexhaustive enum variant is not intended for use.")
        | t =>
          match modelRecordParse (eventTypeLevel t) v with
          | .ok e => .ok (.other t e)
          | .error m => .error (.validation v m)
      | _ =>
        .error (.validation v "invalid type, expected a Matrix event type as a string")

/-- `collections::all::StateEvent`: the state-level collection. -/
inductive AllStateEvent where
  | roomServerAcl (e : ServerAclEvent)
  | other (t : EventType) (e : Json)
  | customState (e : CustomStateEvent)
deriving Repr, BEq

/-- `impl FromStr for collections::all::StateEvent` (`src/collections/all.rs`
lines 1281-1463): only state discriminants are accepted; every other known
discriminant is rejected with a "not a state event" diagnostic, and an
unrecognized discriminant goes to the state catch-all unconditionally. -/
def stateEventFromStr : JsonInput → Except InvalidEvent AllStateEvent
  | .malformed e => .error (.deserialization e)
  | .value v =>
    match v.get "type" with
    | none => .error (.validation v "missing field `type`")
    | some typeValue =>
      match typeValue with
      | .str s =>
        match eventTypeFromString s with
        | .roomServerAcl =>
          match serverAclEventFromStr (.value v) with
          | .ok e => .ok (.roomServerAcl e)
          | .error err => .error (.validation v err.message)
        | .custom _ =>
          match customStateEventParse v with
          | .ok e => .ok (.customState e)
          | .error m => .error (.validation v m)
        | .callAnswer | .callCandidates | .callHangup | .callInvite
        | .direct | .dummy | .forwardedRoomKey | .fullyRead
        | .keyVerificationAccept | .keyVerificationCancel
        | .keyVerificationKey | .keyVerificationMac
        | .keyVerificationRequest | .keyVerificationStart
        | .ignoredUserList | .presence | .pushRules | .receipt
        | .roomEncrypted | .roomMessage | .roomMessageFeedback
        | .roomRedaction | .roomKey | .roomKeyRequest
        | .sticker | .tag | .typing =>
          .error (.validation v "not a state event")
        | .nonexhaustive =>
          .error (.validation v "__Nonexhaustive enum variant is not intended for use.")
        | t =>
          match modelRecordParse (eventTypeLevel t) v with
          | .ok e => .ok (.other t e)
          | .error m => .error (.validation v m)
      | _ =>
        .error (.validation v "invalid type, expected a Matrix event type as a string")

example :
    roomEventFromStr (.value (.obj [("content", .obj []), ("type", .str "m.dummy")]))
      = .error (.validation (.obj [("content", .obj []), ("type", .str "m.dummy")])
          "not a room event") := by rfl

example :
    stateEventFromStr (.value (.obj [("content", .obj []), ("type", .str "m.sticker")]))
      = .error (.validation (.obj [("content", .obj []), ("type", .str "m.sticker")])
          "not a state event") := by rfl

example :
    allEventFromStr (.value (.obj [("content", .obj []),
        ("type", .str "io.example.custom")]))
      = .ok (.custom ⟨.obj [], "io.example.custom"⟩) := by rfl

/-- Whether an `EventType` is the `Custom` escape hatch. -/
def EventType.isCustom : EventType → Bool
  | .custom _ => true
  | _ => false

theorem eventTypeList_toString :
    ∀ p ∈ eventTypeList, eventTypeToString p.2 = some p.1 := by
  intro p hp
  fin_cases hp <;> rfl

theorem eventTypeList_fromString :
    ∀ p ∈ eventTypeList, eventTypeFromString p.1 = p.2 ∧ p.2.isCustom = false := by
  intro p hp
  fin_cases hp <;> exact ⟨rfl, rfl⟩

/-- C2: converting any string to an `EventType` and re-encoding it via its
display form yields exactly that string; each known wire string maps to its
dedicated (non-`Custom`) variant and back to the same string, and any string
not exactly equal to a known one maps to `Custom`, preserved verbatim. -/
theorem eventType_string_roundtrip :
    (∀ s : String, eventTypeToString (eventTypeFromString s) = some s) ∧
    (∀ p ∈ eventTypeList,
      eventTypeFromString p.1 = p.2 ∧ p.2.isCustom = false ∧
      eventTypeToString p.2 = some p.1) ∧
    (∀ s : String, (∀ p ∈ eventTypeList, p.1 ≠ s) →
      eventTypeFromString s = .custom s) := by
  refine ⟨?_, ?_, ?_⟩
  · intro s
    unfold eventTypeFromString
    cases h : eventTypeList.find? (fun p => p.1 = s) with
    | none => rfl
    | some p =>
      have hps : p.1 = s := by
        have := List.find?_some h
        simpa using this
      have hmem : p ∈ eventTypeList := List.mem_of_find?_eq_some h
      rw [eventTypeList_toString p hmem, hps]
  · intro p hp
    exact ⟨(eventTypeList_fromString p hp).1, (eventTypeList_fromString p hp).2,
      eventTypeList_toString p hp⟩
  · intro s hs
    unfold eventTypeFromString
    cases h : eventTypeList.find? (fun p => p.1 = s) with
    | none => rfl
    | some p =>
      have hps : p.1 = s := by
        have := List.find?_some h
        simpa using this
      exact absurd hps (hs p (List.mem_of_find?_eq_some h))

theorem eventType_string_roundtrip_witness :
    eventTypeToString (eventTypeFromString "m.room.create") = some "m.room.create" ∧
    eventTypeFromString "io.ruma.test" = .custom "io.ruma.test" :=
  ⟨eventType_string_roundtrip.1 "m.room.create",
   eventType_string_roundtrip.2.2 "io.ruma.test" (by
     intro p hp
     fin_cases hp <;> decide)⟩

/-- C5: decoding a JSON value lacking a `type` key at any collection level
returns a semantic-class (`Validation`) diagnostic whose message is
"missing field `type`" and which carries the parsed JSON value. -/
theorem missing_type_field_diagnostic (v : Json) (h : v.get "type" = none) :
    allEventFromStr (.value v) = .error (.validation v "missing field `type`") ∧
    roomEventFromStr (.value v) = .error (.validation v "missing field `type`") ∧
    stateEventFromStr (.value v) = .error (.validation v "missing field `type`") := by
  refine ⟨?_, ?_, ?_⟩
  · simp only [allEventFromStr, h]
  · simp only [roomEventFromStr, h]
  · simp only [stateEventFromStr, h]

theorem missing_type_field_diagnostic_witness :
    allEventFromStr (.value (.obj [("content", .obj [])]))
        = .error (.validation (.obj [("content", .obj [])]) "missing field `type`") ∧
    roomEventFromStr (.value (.obj [("content", .obj [])]))
        = .error (.validation (.obj [("content", .obj [])]) "missing field `type`") ∧
    stateEventFromStr (.value (.obj [("content", .obj [])]))
        = .error (.validation (.obj [("content", .obj [])]) "missing field `type`") :=
  missing_type_field_diagnostic (.obj [("content", .obj [])]) rfl

/-- The wire strings of the discriminants the RoomOrState collection rejects
(`src/collections/all.rs` lines 1024-1044): the basic-only event types. -/
def roomRejectedStrings : List String :=
  [ "m.direct", "m.dummy", "m.forwarded_room_key", "m.fully_read"
  , "m.key.verification.accept", "m.key.verification.cancel"
  , "m.key.verification.key", "m.key.verification.mac"
  , "m.key.verification.request", "m.key.verification.start"
  , "m.ignored_user_list", "m.presence", "m.push_rules", "m.receipt"
  , "m.room_key", "m.room_key_request", "m.tag", "m.typing" ]

/-- The wire strings of the discriminants the StateOnly collection rejects
(`src/collections/all.rs` lines 1428-1457): every known non-state type. -/
def stateRejectedStrings : List String :=
  [ "m.call.answer", "m.call.candidates", "m.call.hangup", "m.call.invite"
  , "m.direct", "m.dummy", "m.forwarded_room_key", "m.fully_read"
  , "m.key.verification.accept", "m.key.verification.cancel"
  , "m.key.verification.key", "m.key.verification.mac"
  , "m.key.verification.request", "m.key.verification.start"
  , "m.ignored_user_list", "m.presence", "m.push_rules", "m.receipt"
  , "m.room.encrypted", "m.room.message", "m.room.message.feedback"
  , "m.room.redaction", "m.room_key", "m.room_key_request"
  , "m.sticker", "m.tag", "m.typing" ]

/-- C4: a known discriminant that is invalid for the requested collection
level is a hard failure, never a catch-all — the RoomOrState decoder rejects
every basic-only discriminant with a "not a room event" diagnostic, and the
StateOnly decoder rejects every known non-state discriminant with a
"not a state event" diagnostic. -/
theorem level_mismatch_hard_rejection (v : Json) (s : String)
    (hv : v.get "type" = some (.str s)) :
    (s ∈ roomRejectedStrings →
      roomEventFromStr (.value v) = .error (.validation v "not a room event")) ∧
    (s ∈ stateRejectedStrings →
      stateEventFromStr (.value v) = .error (.validation v "not a state event")) := by
  constructor
  · intro hs
    fin_cases hs <;> simp only [roomEventFromStr, hv] <;> rfl
  · intro hs
    fin_cases hs <;> simp only [stateEventFromStr, hv] <;> rfl

theorem level_mismatch_hard_rejection_witness :
    roomEventFromStr (.value (.obj [("content", .obj []), ("type", .str "m.direct")]))
        = .error (.validation (.obj [("content", .obj []), ("type", .str "m.direct")])
            "not a room event") ∧
    stateEventFromStr (.value (.obj [("content", .obj []), ("type", .str "m.sticker")]))
        = .error (.validation (.obj [("content", .obj []), ("type", .str "m.sticker")])
            "not a state event") :=
  ⟨(level_mismatch_hard_rejection
      (.obj [("content", .obj []), ("type", .str "m.direct")]) "m.direct" rfl).1
      (by decide),
   (level_mismatch_hard_rejection
      (.obj [("content", .obj []), ("type", .str "m.sticker")]) "m.sticker" rfl).2
      (by decide)⟩

/-- C3: the Any-level decoder routes an unknown discriminant by field
presence — `state_key` present routes to the state catch-all, otherwise
`event_id`, `room_id` and `sender` all present routes to the room catch-all,
and otherwise the basic catch-all (which always succeeds, preserving the
discriminant string and the raw content). -/
theorem custom_type_field_routing (v : Json) (s : String)
    (hv : v.get "type" = some (.str s))
    (hunk : eventTypeFromString s = .custom s) :
    ((v.get "state_key").isSome = true →
      ∀ c, customStateEventParse v = .ok c →
        allEventFromStr (.value v) = .ok (.customState c)) ∧
    ((v.get "state_key").isSome = false →
      ((v.get "event_id").isSome && (v.get "room_id").isSome
        && (v.get "sender").isSome) = true →
      ∀ c, customRoomEventParse v = .ok c →
        allEventFromStr (.value v) = .ok (.customRoom c)) ∧
    ((v.get "state_key").isSome = false →
      ((v.get "event_id").isSome && (v.get "room_id").isSome
        && (v.get "sender").isSome) = false →
      allEventFromStr (.value v) = .ok (.custom ⟨(v.get "content").getD .null, s⟩)) := by
  refine ⟨?_, ?_, ?_⟩
  · intro hsk c hc
    simp only [allEventFromStr, hv, hunk, hsk, hc]
    simp
  · intro hsk hids c hc
    simp only [allEventFromStr, hv, hunk, hsk, hids, hc]
    simp
  · intro hsk hids
    simp only [allEventFromStr, hv, hunk, hsk, hids, customEventParse]
    simp [hv]

theorem custom_type_field_routing_witness :
    allEventFromStr (.value (.obj
        [ ("content", .obj []), ("type", .str "io.example.custom")
        , ("event_id", .str "$e:example.com"), ("origin_server_ts", .num 1)
        , ("sender", .str "@carl:example.com"), ("state_key", .str "") ]))
      = .ok (.customState ⟨.obj [], "io.example.custom", "$e:example.com", 1,
          none, none, "@carl:example.com", "", none⟩) ∧
    allEventFromStr (.value (.obj
        [ ("content", .obj []), ("type", .str "io.example.custom")
        , ("event_id", .str "$e:example.com"), ("room_id", .str "!r:example.com")
        , ("origin_server_ts", .num 1), ("sender", .str "@carl:example.com") ]))
      = .ok (.customRoom ⟨.obj [], "io.example.custom", "$e:example.com", 1,
          some "!r:example.com", "@carl:example.com", none⟩) ∧
    allEventFromStr (.value (.obj
        [ ("content", .obj []), ("type", .str "io.example.custom") ]))
      = .ok (.custom ⟨.obj [], "io.example.custom"⟩) :=
  ⟨(custom_type_field_routing
      (.obj [ ("content", .obj []), ("type", .str "io.example.custom")
            , ("event_id", .str "$e:example.com"), ("origin_server_ts", .num 1)
            , ("sender", .str "@carl:example.com"), ("state_key", .str "") ])
      "io.example.custom" rfl (by decide)).1 rfl _ rfl,
   ((custom_type_field_routing
      (.obj [ ("content", .obj []), ("type", .str "io.example.custom")
            , ("event_id", .str "$e:example.com"), ("room_id", .str "!r:example.com")
            , ("origin_server_ts", .num 1), ("sender", .str "@carl:example.com") ])
      "io.example.custom" rfl (by decide)).2.1 rfl rfl _ rfl),
   ((custom_type_field_routing
      (.obj [ ("content", .obj []), ("type", .str "io.example.custom") ])
      "io.example.custom" rfl (by decide)).2.2 rfl rfl)⟩

/-- C1: evaluating the codec at the full state-event JSON object — decoding
succeeds, but re-encoding the resulting `ServerAclEvent` produces an object
whose keys are exactly `content` and `type`: the `event_id`,
`origin_server_ts`, `sender` and `state_key` keys of the input are dropped
by the two-field `Serialize` implementation, so the round-trip does not
reproduce the input's key set. -/
theorem serverAcl_reencode_drops_state_fields :
    serverAclEventFromStr (.value serverAclTestInput)
      = .ok ⟨⟨true, [], []⟩, "$h29iv0s8:example.com", 1, none, none,
          "@carl:example.com", "", none⟩ ∧
    serverAclEventSerialize ⟨⟨true, [], []⟩, "$h29iv0s8:example.com", 1, none,
        none, "@carl:example.com", "", none⟩
      = .obj [ ("content", .obj [ ("allow_ip_literals", .bool true)
                                , ("allow", .arr []), ("deny", .arr []) ])
             , ("type", .str "m.room.server_acl") ] ∧
    Json.keys (serverAclEventSerialize ⟨⟨true, [], []⟩, "$h29iv0s8:example.com",
        1, none, none, "@carl:example.com", "", none⟩) = ["content", "type"] ∧
    (serverAclTestInput.get "event_id").isSome = true ∧
    (serverAclEventSerialize ⟨⟨true, [], []⟩, "$h29iv0s8:example.com", 1, none,
        none, "@carl:example.com", "", none⟩).get "event_id" = none :=
  ⟨rfl, rfl, rfl, rfl, rfl⟩

/-- The ignored-user-list JSON object of concrete scenario B. -/
def ignoredUserListTestInput : Json :=
  .obj [ ("content", .obj [("ignored_users",
           .obj [("@carl:example.com", .obj [])])])
       , ("type", .str "m.ignored_user_list") ]

/-- C7: decoding the scenario-B JSON succeeds with an ignored-user list
containing exactly `@carl:example.com` (the wire map from identifier to
empty object is lowered to a plain list of keys), and re-encoding that
record reproduces the map-of-identifiers-to-empty-object shape together
with the `m.ignored_user_list` discriminant — exactly the input object. -/
theorem ignoredUserList_lowering_roundtrip :
    ignoredUserListEventFromStr (.value ignoredUserListTestInput)
      = .ok ⟨⟨["@carl:example.com"]⟩⟩ ∧
    ignoredUserListEventSerialize ⟨⟨["@carl:example.com"]⟩⟩
      = ignoredUserListTestInput :=
  ⟨rfl, rfl⟩

/-- C8: decoding the scenario-C server-acl JSON succeeds and the absent
content fields take their defaults — `allow_ip_literals = true`,
`allow = []`, `deny = []`. -/
theorem serverAcl_content_defaults :
    ∃ e, serverAclEventFromStr (.value serverAclTestInput) = .ok e ∧
      e.content.allow_ip_literals = true ∧ e.content.allow = [] ∧
      e.content.deny = [] :=
  ⟨⟨⟨true, [], []⟩, "$h29iv0s8:example.com", 1, none, none,
      "@carl:example.com", "", none⟩, rfl, rfl, rfl, rfl⟩

/-- C9: decoding an encrypted-event content object with no `algorithm` field
fails with a validation diagnostic reporting the missing discriminating
field, and an `algorithm` string that is neither supported tag fails with a
semantic-class diagnostic rather than decoding into any variant. -/
theorem encrypted_algorithm_validation (v : Json) :
    (v.get "algorithm" = none →
      encryptedEventContentFromStr (.value v)
        = .error (.validation v "missing field `algorithm`")) ∧
    (∀ s, v.get "algorithm" = some (.str s) → algorithmFromString s = .custom s →
      encryptedEventContentFromStr (.value v)
        = .error (.validation v
            "Custom algorithms are not supported by `EncryptedEventContent`.")) := by
  constructor
  · intro h
    simp only [encryptedEventContentFromStr, rawEncryptedEventContentParse, h]
  · intro s hs hc
    simp only [encryptedEventContentFromStr, rawEncryptedEventContentParse, hs,
      algorithmFromJson, hc]

theorem encrypted_algorithm_validation_witness :
    encryptedEventContentFromStr (.value (.obj [("ciphertext", .str "x")]))
      = .error (.validation (.obj [("ciphertext", .str "x")])
          "missing field `algorithm`") ∧
    encryptedEventContentFromStr (.value (.obj [("algorithm", .str "io.ruma.test")]))
      = .error (.validation (.obj [("algorithm", .str "io.ruma.test")])
          "Custom algorithms are not supported by `EncryptedEventContent`.") :=
  ⟨(encrypted_algorithm_validation (.obj [("ciphertext", .str "x")])).1 rfl,
   (encrypted_algorithm_validation (.obj [("algorithm", .str "io.ruma.test")])).2
     "io.ruma.test" rfl rfl⟩

/-- C10: the `Empty` marker serializes to exactly the empty JSON object; its
deserializer accepts any JSON object whatsoever (entries ignored), while any
non-object JSON value is rejected. -/
theorem empty_marker_serde :
    emptyMarkerSerialize = Json.obj [] ∧
    emptyMarkerDeserialize (.obj [("a", .num 1)]) = .ok ⟨⟩ ∧
    (∀ v : Json, v.isObj = false →
      emptyMarkerDeserialize v = .error "invalid type, expected an object/map") := by
  refine ⟨rfl, rfl, ?_⟩
  intro v h
  cases v <;> first | rfl | exact absurd h (by simp [Json.isObj])

theorem empty_marker_serde_witness :
    emptyMarkerDeserialize (.num 1)
      = .error "invalid type, expected an object/map" :=
  empty_marker_serde.2.2 (.num 1) rfl

/-- C6 counterexample: `{}` is valid JSON that fails the phase-1 structural
parse of `IgnoredUserListEvent` (missing required field `content`), yet the
`FromStr` decoder surfaces it as a `Validation` (semantic-class) diagnostic,
not as a `Deserialization` (syntactic-class) one as the claim requires. -/
theorem structural_mismatch_class_counterexample :
    ignoredUserListEventFromStr (.value (.obj []))
      = .error (.validation (.obj []) "missing field `content`") ∧
    ∀ e : String, ignoredUserListEventFromStr (.value (.obj []))
      ≠ .error (.deserialization e) := by
  refine ⟨rfl, ?_⟩
  intro e h
  rw [show ignoredUserListEventFromStr (.value (.obj []))
      = .error (.validation (.obj []) "missing field `content`") from rfl] at h
  exact InvalidEvent.noConfusion (Except.error.inj h)

/-- C6 amended: in the `FromStr`-based decoders, valid JSON that fails the
phase-1 structural parse yields a validation-class diagnostic carrying the
parsed value and the underlying parser error text, while input that is not
valid JSON at all yields a deserialization-class diagnostic; the
`EventResult` deserialization path surfaces phase-1 failures as
deserialization-class diagnostics carrying the parsed value and the parser
error text. -/
theorem structural_mismatch_diagnostic_classes :
    (∀ v e, rawIgnoredUserListEventParse v = .error e →
      ignoredUserListEventFromStr (.value v) = .error (.validation v e)) ∧
    (∀ v e, rawEncryptedEventParse v = .error e →
      encryptedEventFromStr (.value v) = .error (.validation v e)) ∧
    (∀ e, ignoredUserListEventFromStr (.malformed e)
      = .error (.deserialization e)) ∧
    (∀ e, encryptedEventFromStr (.malformed e) = .error (.deserialization e)) ∧
    (∀ (Raw T : Type) (rawParse : Json → Except String Raw)
        (tryInto : Raw → Except (Raw × String) T) (json : Json) (e : String),
      rawParse json = .error e →
      eventResultDeserializeValidated rawParse tryInto json
        = .err (.deserialization json e)) := by
  refine ⟨?_, ?_, ?_, ?_, ?_⟩
  · intro v e h
    simp only [ignoredUserListEventFromStr, h]
  · intro v e h
    simp only [encryptedEventFromStr, h]
  · intro e
    rfl
  · intro e
    rfl
  · intro Raw T rawParse tryInto json e h
    simp only [eventResultDeserializeValidated, h]

theorem structural_mismatch_diagnostic_classes_witness :
    ignoredUserListEventFromStr
        (.value (.obj [("content", .obj [("ignored_users", .arr [])])]))
      = .error (.validation (.obj [("content", .obj [("ignored_users", .arr [])])])
          "invalid type, expected a map") ∧
    eventResultDeserializeValidated
        (fun _ => (.error "missing field `content`" : Except String Unit))
        (fun r => .ok r) (.obj [])
      = .err (.deserialization (.obj []) "missing field `content`") :=
  ⟨structural_mismatch_diagnostic_classes.1
      (.obj [("content", .obj [("ignored_users", .arr [])])])
      "invalid type, expected a map" rfl,
   structural_mismatch_diagnostic_classes.2.2.2.2 Unit Unit
      (fun _ => .error "missing field `content`") (fun r => .ok r)
      (.obj []) "missing field `content`" rfl⟩
